import Mathlib

/-!
Shallow embedding of the Telegram routing layer of goteleout
(internal/presentation/telegram): the command router `routeMessage`,
the authenticator `login`, and the closure that `Run` hands to the
transport. The bodies of the command handlers, of the spam-reaction
message handler, and of the transport calls made by `login` are not
part of the routing source; their outcomes are supplied as parameters
(`Behavior`, `AuthWorld`). Observable side effects (log lines, handler
invocations, the self-notification send) are recorded as an event trace.
-/

namespace Goteleout

/-- A `tg.Message` as far as routing is concerned: the router reads only
`m.Post` and `m.Message`. -/
structure Message where
  post : Bool
  message : String
deriving DecidableEq, Repr

/-- Result of `update.GetMessage()` followed by the type assertion
`.(*tg.Message)`: either it yields a message or the update has an
unexpected shape. -/
inductive GetMessageResult where
  | tgMessage (m : Message)
  | other
deriving DecidableEq, Repr

/-- Abstract `tg.Entities` value: passed through to handlers unread. -/
structure Entities where
  tag : Nat
deriving DecidableEq, Repr

/-- Abstract `message.AnswerableMessageUpdate`: a token plus what its
`GetMessage` returns. -/
structure Update where
  tag : Nat
  getMessage : GetMessageResult
deriving DecidableEq, Repr

/-- An update whose `GetMessage` assertion succeeds with message `m`. -/
def mkUpdate (tag : Nat) (m : Message) : Update :=
  { tag := tag, getMessage := GetMessageResult.tgMessage m }

/-- The four handler methods installed into the command table by
`MustNewTelegramPresentation`. Their bodies live outside the routing
source; the router only stores and invokes them. -/
inductive HandlerRef where
  | pingCommandHandler
  | helpCommandHandler
  | getMeCommandHandler
  | spamReactionCommandHandler
deriving DecidableEq, Repr

/-- The routing-relevant state of `telegram.Presentation`: the command
table `commandHandler` (Go `map[string]commandProcessor`, rendered as an
association list in the source text order). The remaining Go fields hold
external transport handles (client, sender, api, manager, waiter,
storage) consumed only through their interfaces. -/
structure Presentation where
  commandHandler : List (String × HandlerRef)
deriving DecidableEq, Repr

/-- `MustNewTelegramPresentation` installs the static command table. -/
def mustNewTelegramPresentation : Presentation :=
  { commandHandler :=
      [("ping", HandlerRef.pingCommandHandler),
       ("help", HandlerRef.helpCommandHandler),
       ("getMe", HandlerRef.getMeCommandHandler),
       ("spamReaction", HandlerRef.spamReactionCommandHandler)] }

/-- Observable events of the routing layer: log lines and calls into the
externally-defined handlers and transport. `handlerCall` records the
arguments the router passes (the ambient `ctx` is not modelled); the
duration logged by `logInfoOk` is wall-clock time, outside the embedding. -/
inductive Event where
  | logDebugMessageGot (text : String)
  | spamHandlerCall (e : Entities) (u : Update) (m : Message)
  | logWarnUnknownCommand (command : String) (text : String)
  | logInfoCommandGot (command : String)
  | handlerCall (h : HandlerRef) (e : Entities) (u : Update) (m : Message)
  | logInfoOk
  | logInfoAuthorizing
  | selfTextCall (text : String)
  | logErrorProcessing (err : String)
deriving DecidableEq, Repr

/-- Outcomes of the externally-defined handler bodies: `none` is a nil
error (success), `some e` a Go error. `run h` gives the outcome of the
command handler the table maps to `h`. -/
structure Behavior where
  spamReactionMessageHandler : Entities → Update → Message → Option String
  run : HandlerRef → Entities → Update → Message → Option String

/-- Go `unicode.IsSpace`: the Unicode White_Space property. In Latin-1 these
are U+0009-U+000D, space, U+0085 and U+00A0; above Latin-1 the White_Space
range table adds U+1680, U+2000-U+200A, U+2028, U+2029, U+202F, U+205F and
U+3000. -/
def isSpace (c : Char) : Bool :=
  c == ' ' || c == '\t' || c == '\n' || c == '\x0b' || c == '\x0c' || c == '\r'
    || c == '\u0085' || c == '\u00A0' || c == '\u1680'
    || (decide (0x2000 ≤ c.toNat) && decide (c.toNat ≤ 0x200A))
    || c == '\u2028' || c == '\u2029' || c == '\u202F'
    || c == '\u205F' || c == '\u3000'

/-- Splits a character list around runs of whitespace, accumulating the
reversed current token in `cur`; no empty tokens are produced. -/
def fieldsOfChars : List Char → List Char → List String
  | [], cur => if cur.isEmpty then [] else [String.mk cur.reverse]
  | c :: cs, cur =>
    if isSpace c then
      if cur.isEmpty then fieldsOfChars cs []
      else String.mk cur.reverse :: fieldsOfChars cs []
    else fieldsOfChars cs (c :: cur)

/-- Go `strings.Fields`: split around runs of whitespace; no empty tokens. -/
def fieldsOf (s : String) : List String := fieldsOfChars s.data []

/-- The `BadUpdate` sentinel error (`errors.New("bad update")`). -/
def BadUpdate : String := "bad update"

/-- `Presentation.routeMessage`, translated line by line from the source.
Returns the Go error (as `Except`), the event trace, and the state; the
source writes no field of the receiver, so the input state is returned. -/
def routeMessage (b : Behavior) (r : Presentation) (entities : Entities)
    (update : Update) : Except String Unit × List Event × Presentation :=
  match update.getMessage with
  | GetMessageResult.other => (Except.error BadUpdate, [], r)
  | GetMessageResult.tgMessage m =>
    if m.post then
      (Except.ok (), [], r)
    else
      match fieldsOf m.message with
      | [] => (Except.ok (), [Event.logDebugMessageGot m.message], r)
      | firstMessage :: _ =>
        match b.spamReactionMessageHandler entities update m with
        | some e =>
          (Except.error e,
           [Event.logDebugMessageGot m.message,
            Event.spamHandlerCall entities update m], r)
        | none =>
          if firstMessage.length < 1 then
            (Except.ok (),
             [Event.logDebugMessageGot m.message,
              Event.spamHandlerCall entities update m], r)
          else if firstMessage.front ≠ '!' then
            (Except.ok (),
             [Event.logDebugMessageGot m.message,
              Event.spamHandlerCall entities update m], r)
          else
            match List.lookup (firstMessage.drop 1) r.commandHandler with
            | none =>
              (Except.ok (),
               [Event.logDebugMessageGot m.message,
                Event.spamHandlerCall entities update m,
                Event.logWarnUnknownCommand (firstMessage.drop 1) m.message], r)
            | some handler =>
              match b.run handler entities update m with
              | some e =>
                (Except.error e,
                 [Event.logDebugMessageGot m.message,
                  Event.spamHandlerCall entities update m,
                  Event.logInfoCommandGot (firstMessage.drop 1),
                  Event.handlerCall handler entities update m], r)
              | none =>
                (Except.ok (),
                 [Event.logDebugMessageGot m.message,
                  Event.spamHandlerCall entities update m,
                  Event.logInfoCommandGot (firstMessage.drop 1),
                  Event.handlerCall handler entities update m,
                  Event.logInfoOk], r)

/-- Outcomes of the external calls `login` makes: `Auth().Status`
(its error and the `Authorized` flag of the status it returns),
`Auth().IfNecessary`, and `telegramSender.Self().Text`. -/
structure AuthWorld where
  statusAuthorized : Bool
  statusErr : Option String
  ifNecessaryErr : Option String
  selfTextErr : Option String
deriving DecidableEq, Repr

/-- Go `errors.Join` of two errors, rendered as newline-joined text. -/
def joinErrors (a b : String) : String := a ++ "\n" ++ b

/-- `Presentation.login`, translated from the source: query auth status;
if not authorized, log and run the flow (overwriting `err`); any error so
far is joined with "error while authenticating" and returned; otherwise
send the self-notification and return its error verbatim if it fails. -/
def login (w : AuthWorld) (r : Presentation) :
    Except String Unit × List Event × Presentation :=
  match (if w.statusAuthorized then w.statusErr else w.ifNecessaryErr) with
  | some e =>
    (Except.error (joinErrors e "error while authenticating"),
     if w.statusAuthorized then [] else [Event.logInfoAuthorizing], r)
  | none =>
    match w.selfTextErr with
    | some e =>
      (Except.error e,
       (if w.statusAuthorized then [] else [Event.logInfoAuthorizing])
         ++ [Event.selfTextCall "Telegram client initialized"], r)
    | none =>
      (Except.ok (),
       (if w.statusAuthorized then [] else [Event.logInfoAuthorizing])
         ++ [Event.selfTextCall "Telegram client initialized"], r)

/-- The callback body `Run` registers for both `OnNewChannelMessage` and
`OnNewMessage`: call `routeMessage`; on error, log it with stack context;
return the routing result to the dispatcher unchanged. -/
def subscriptionCallback (b : Behavior) (r : Presentation) (entities : Entities)
    (update : Update) : Except String Unit × List Event × Presentation :=
  match routeMessage b r entities update with
  | (Except.error e, evs, r1) =>
    (Except.error e, evs ++ [Event.logErrorProcessing e], r1)
  | (Except.ok _, evs, r1) => (Except.ok (), evs, r1)

/-- One delivered update fed through the subscription callback,
accumulating the trace and threading the state. -/
def dispatchStep (b : Behavior) (acc : List Event × Presentation)
    (p : Entities × Update) : List Event × Presentation :=
  match subscriptionCallback b acc.2 p.1 p.2 with
  | (_, evs, r2) => (acc.1 ++ evs, r2)

/-- The closure `Run` passes to `telegramClient.Run`: authenticate (a login
error is returned at once, before any subscription is registered), then
register the two subscriptions and let the transport deliver updates to
them. The delivered update sequence is an input; the transport lifecycle
(flood waiter, rate limiter, run-until-canceled) is external, and `ok`
stands for its normal termination. -/
def runInner (w : AuthWorld) (b : Behavior) (r : Presentation)
    (upds : List (Entities × Update)) :
    Except String Unit × List Event × Presentation :=
  match login w r with
  | (Except.error e, evs, r1) => (Except.error e, evs, r1)
  | (Except.ok _, evs0, r1) =>
    match upds.foldl (dispatchStep b) (evs0, r1) with
    | (evs, r2) => (Except.ok (), evs, r2)

/-- Behavior in which every external handler succeeds. -/
def okBehavior : Behavior :=
  { spamReactionMessageHandler := fun _ _ _ => none
    run := fun _ _ _ _ => none }

/-- Behavior in which the spam-reaction message handler fails. -/
def spamFailBehavior : Behavior :=
  { spamReactionMessageHandler := fun _ _ _ => some "spam handler failed"
    run := fun _ _ _ _ => none }

/-- Behavior in which every command handler fails. -/
def handlerFailBehavior : Behavior :=
  { spamReactionMessageHandler := fun _ _ _ => none
    run := fun _ _ _ _ => some "handler failed" }

/-- A fixed entities value for concrete instances. -/
def entities0 : Entities := { tag := 0 }

/-- Auth outcomes: already authorized, but the self-notification send fails. -/
def failSendWorld : AuthWorld :=
  { statusAuthorized := true, statusErr := none, ifNecessaryErr := none,
    selfTextErr := some "send failed" }

/-- Auth outcomes: flow runs and succeeds, then the self-send fails. -/
def flowThenFailSendWorld : AuthWorld :=
  { statusAuthorized := false, statusErr := none, ifNecessaryErr := none,
    selfTextErr := some "send failed after flow" }

/-- Reduction lemma: `mkUpdate` carries a real message. -/
theorem getMessage_mkUpdate (tag : Nat) (m : Message) :
    (mkUpdate tag m).getMessage = GetMessageResult.tgMessage m := rfl

/-- A token whose first character is the command marker is nonempty, so the
dead `len(firstMessage) < 1` guard cannot fire on it. -/
theorem front_bang_not_short (f : String) (hfront : f.front = '!') :
    ¬ f.length < 1 := by
  obtain ⟨d⟩ := f
  cases d with
  | nil => exact absurd hfront (by decide)
  | cons c cs =>
    intro hlt
    have hc : cs.length + 1 < 1 := hlt
    omega

/-- `routeMessage` returns the presentation state unchanged. -/
theorem routeMessage_preserves (b : Behavior) (r : Presentation) (e : Entities)
    (u : Update) : (routeMessage b r e u).2.2 = r := by
  unfold routeMessage
  repeat' split
  all_goals rfl

/-- The subscription callback returns the presentation state unchanged. -/
theorem subscriptionCallback_preserves (b : Behavior) (r : Presentation)
    (e : Entities) (u : Update) : (subscriptionCallback b r e u).2.2 = r := by
  unfold subscriptionCallback
  split
  case _ err evs r1 heq =>
    have h := routeMessage_preserves b r e u
    rw [heq] at h
    exact h
  case _ evs r1 x heq =>
    have h := routeMessage_preserves b r e u
    rw [heq] at h
    exact h

/-- One dispatch step preserves the presentation state in the accumulator. -/
theorem dispatchStep_preserves (b : Behavior) (acc : List Event × Presentation)
    (p : Entities × Update) : (dispatchStep b acc p).2 = acc.2 := by
  unfold dispatchStep
  split
  case _ x evs r2 heq =>
    have h := subscriptionCallback_preserves b acc.2 p.1 p.2
    rw [heq] at h
    exact h

/-- Folding dispatch steps over any delivered update sequence preserves the
presentation state. -/
theorem foldl_dispatchStep_preserves (b : Behavior)
    (upds : List (Entities × Update)) (acc : List Event × Presentation) :
    (upds.foldl (dispatchStep b) acc).2 = acc.2 := by
  induction upds generalizing acc with
  | nil => rfl
  | cons p rest ih =>
    rw [List.foldl_cons, ih]
    exact dispatchStep_preserves b acc p

/-- `login` returns the presentation state unchanged. -/
theorem login_preserves (w : AuthWorld) (r : Presentation) :
    (login w r).2.2 = r := by
  unfold login
  repeat' split
  all_goals rfl

/-- The `Run` closure returns the presentation state unchanged. -/
theorem runInner_preserves (w : AuthWorld) (b : Behavior) (r : Presentation)
    (upds : List (Entities × Update)) : (runInner w b r upds).2.2 = r := by
  unfold runInner
  split
  case _ err evs r1 heq =>
    have h := login_preserves w r
    rw [heq] at h
    exact h
  case _ u0 evs0 r1 heq =>
    split
    case _ evs r2 heq2 =>
      have h1 := foldl_dispatchStep_preserves b upds (evs0, r1)
      rw [heq2] at h1
      have h2 := login_preserves w r
      rw [heq] at h2
      exact h1.trans h2

/-- Claim C7: for every inbound update whose message is a channel post,
routeMessage returns success immediately, emits no event, and invokes no
handler of any kind. -/
theorem routeMessage_channel_post (b : Behavior) (r : Presentation)
    (e : Entities) (tag : Nat) (s : String) :
    routeMessage b r e (mkUpdate tag { post := true, message := s })
      = (Except.ok (), [], r) := rfl

/-- Claim C1 fails on the code: for the non-post message made of three spaces,
which has zero whitespace tokens, routeMessage returns success but its whole
trace is the debug log - the spam-reaction handler is never called, because
the router returns before the secondary-handler call. -/
theorem routeMessage_zero_tokens_drops_all_cex :
    (routeMessage okBehavior mustNewTelegramPresentation entities0
        (mkUpdate 0 { post := false, message := "   " })).1 = Except.ok ()
    ∧ (routeMessage okBehavior mustNewTelegramPresentation entities0
        (mkUpdate 0 { post := false, message := "   " })).2.1
      = [Event.logDebugMessageGot "   "] :=
  ⟨rfl, rfl⟩

/-- Claim C1 (amended): for every non-post message whose text has zero
whitespace tokens, routeMessage returns success having emitted only the debug
log - neither the spam-reaction handler nor any command handler runs. -/
theorem routeMessage_zero_tokens (b : Behavior) (r : Presentation) (e : Entities)
    (tag : Nat) (s : String) (hfields : fieldsOf s = []) :
    routeMessage b r e (mkUpdate tag { post := false, message := s })
      = (Except.ok (), [Event.logDebugMessageGot s], r) := by
  simp [routeMessage, getMessage_mkUpdate, hfields]

/-- Concrete instance of the amended claim C1, at a message consisting of a
single no-break space U+00A0: zero tokens under Go tokenization, so only the
debug log is emitted and no handler of any kind runs. -/
theorem routeMessage_zero_tokens_witness :
    routeMessage okBehavior mustNewTelegramPresentation entities0
        (mkUpdate 0 { post := false, message := "\u00A0" })
      = (Except.ok (), [Event.logDebugMessageGot "\u00A0"],
         mustNewTelegramPresentation) :=
  routeMessage_zero_tokens okBehavior mustNewTelegramPresentation entities0
    0 "\u00A0" rfl

/-- Claim C2 fails on the code: with the account already authorized (so the
authentication flow succeeds) and the confirmation self-send failing, login
returns that error instead of treating it as a non-fatal warning, and the
Run closure returns it before registering any subscription. -/
theorem login_returns_self_send_error_cex :
    (login failSendWorld mustNewTelegramPresentation).1
      = Except.error "send failed"
    ∧ (runInner failSendWorld okBehavior mustNewTelegramPresentation []).1
      = Except.error "send failed" :=
  ⟨rfl, rfl⟩

/-- Claim C2 (amended): if the authentication flow succeeds but the
confirmation self-notification send fails, login returns exactly that send
error (fatal), and the Run closure returns it without registering
subscriptions or processing any update. -/
theorem login_self_send_failure_fatal (w : AuthWorld) (r : Presentation)
    (b : Behavior) (upds : List (Entities × Update)) (e : String)
    (hauth : (if w.statusAuthorized then w.statusErr else w.ifNecessaryErr) = none)
    (hsend : w.selfTextErr = some e) :
    (login w r).1 = Except.error e
    ∧ (runInner w b r upds).1 = Except.error e := by
  constructor
  · simp [login, hauth, hsend]
  · simp [runInner, login, hauth, hsend]

/-- Concrete instance of the amended claim C2: the flow runs and succeeds,
the self-send fails, and both login and the Run closure return the error. -/
theorem login_self_send_failure_fatal_witness :
    (login flowThenFailSendWorld mustNewTelegramPresentation).1
      = Except.error "send failed after flow"
    ∧ (runInner flowThenFailSendWorld okBehavior mustNewTelegramPresentation []).1
      = Except.error "send failed after flow" :=
  login_self_send_failure_fatal flowThenFailSendWorld mustNewTelegramPresentation
    okBehavior [] "send failed after flow" rfl rfl

/-- Claim C4: for every qualifying message (non-post, at least one whitespace
token) the spam-reaction handler is called directly after the debug log and
before any command-routing event, and when it returns an error that error is
the dispatch result and no command handler is invoked. -/
theorem spam_handler_first_and_aborts (b : Behavior) (r : Presentation)
    (e : Entities) (tag : Nat) (s f : String) (rest : List String)
    (hfields : fieldsOf s = f :: rest) :
    (∃ tail, (routeMessage b r e (mkUpdate tag { post := false, message := s })).2.1
        = Event.logDebugMessageGot s
            :: Event.spamHandlerCall e (mkUpdate tag { post := false, message := s })
                { post := false, message := s }
            :: tail)
    ∧ (∀ err, b.spamReactionMessageHandler e
          (mkUpdate tag { post := false, message := s })
          { post := false, message := s } = some err →
        routeMessage b r e (mkUpdate tag { post := false, message := s })
          = (Except.error err,
             [Event.logDebugMessageGot s,
              Event.spamHandlerCall e (mkUpdate tag { post := false, message := s })
                { post := false, message := s }], r)) := by
  constructor
  · cases hs : b.spamReactionMessageHandler e
        (mkUpdate tag { post := false, message := s })
        { post := false, message := s } with
    | some err =>
      exact ⟨[], by simp [routeMessage, getMessage_mkUpdate, hfields, hs]⟩
    | none =>
      by_cases hl : f.length < 1
      · exact ⟨[], by simp [routeMessage, getMessage_mkUpdate, hfields, hs, hl]⟩
      · by_cases hf : f.front = '!'
        · cases hlk : List.lookup (f.drop 1) r.commandHandler with
          | none =>
            exact ⟨[Event.logWarnUnknownCommand (f.drop 1) s],
              by simp [routeMessage, getMessage_mkUpdate, hfields, hs, hl, hf, hlk]⟩
          | some handler =>
            cases hrun : b.run handler e
                (mkUpdate tag { post := false, message := s })
                { post := false, message := s } with
            | some err =>
              exact ⟨[Event.logInfoCommandGot (f.drop 1),
                      Event.handlerCall handler e
                        (mkUpdate tag { post := false, message := s })
                        { post := false, message := s }],
                by simp [routeMessage, getMessage_mkUpdate, hfields, hs, hl, hf,
                  hlk, hrun]⟩
            | none =>
              exact ⟨[Event.logInfoCommandGot (f.drop 1),
                      Event.handlerCall handler e
                        (mkUpdate tag { post := false, message := s })
                        { post := false, message := s },
                      Event.logInfoOk],
                by simp [routeMessage, getMessage_mkUpdate, hfields, hs, hl, hf,
                  hlk, hrun]⟩
        · exact ⟨[], by simp [routeMessage, getMessage_mkUpdate, hfields, hs, hl, hf]⟩
  · intro err herr
    simp [routeMessage, getMessage_mkUpdate, hfields, herr]

/-- Concrete instance of claim C4: on a failing spam-reaction handler, the
router stops after its call and surfaces its error. -/
theorem spam_handler_first_and_aborts_witness :
    (∃ tail, (routeMessage spamFailBehavior mustNewTelegramPresentation entities0
        (mkUpdate 0 { post := false, message := "!ping" })).2.1
        = Event.logDebugMessageGot "!ping"
            :: Event.spamHandlerCall entities0
                (mkUpdate 0 { post := false, message := "!ping" })
                { post := false, message := "!ping" }
            :: tail)
    ∧ (∀ err, spamFailBehavior.spamReactionMessageHandler entities0
          (mkUpdate 0 { post := false, message := "!ping" })
          { post := false, message := "!ping" } = some err →
        routeMessage spamFailBehavior mustNewTelegramPresentation entities0
            (mkUpdate 0 { post := false, message := "!ping" })
          = (Except.error err,
             [Event.logDebugMessageGot "!ping",
              Event.spamHandlerCall entities0
                (mkUpdate 0 { post := false, message := "!ping" })
                { post := false, message := "!ping" }],
             mustNewTelegramPresentation)) :=
  spam_handler_first_and_aborts spamFailBehavior mustNewTelegramPresentation
    entities0 0 "!ping" "!ping" [] rfl

/-- Claim C5: when the first token is the command marker followed by the name
of a registered command and the spam handler succeeds, routeMessage invokes
exactly that handler, exactly once, with the entities, the update and the full
original message; a handler error becomes the dispatch result, and on success
the completion log is emitted and success returned. -/
theorem routeMessage_known_command (b : Behavior) (r : Presentation)
    (e : Entities) (tag : Nat) (s f : String) (rest : List String)
    (h : HandlerRef)
    (hfields : fieldsOf s = f :: rest)
    (hfront : f.front = '!')
    (hlookup : List.lookup (f.drop 1) r.commandHandler = some h)
    (hspam : b.spamReactionMessageHandler e
        (mkUpdate tag { post := false, message := s })
        { post := false, message := s } = none) :
    routeMessage b r e (mkUpdate tag { post := false, message := s })
      = (match b.run h e (mkUpdate tag { post := false, message := s })
             { post := false, message := s } with
         | some err =>
           (Except.error err,
            [Event.logDebugMessageGot s,
             Event.spamHandlerCall e (mkUpdate tag { post := false, message := s })
               { post := false, message := s },
             Event.logInfoCommandGot (f.drop 1),
             Event.handlerCall h e (mkUpdate tag { post := false, message := s })
               { post := false, message := s }], r)
         | none =>
           (Except.ok (),
            [Event.logDebugMessageGot s,
             Event.spamHandlerCall e (mkUpdate tag { post := false, message := s })
               { post := false, message := s },
             Event.logInfoCommandGot (f.drop 1),
             Event.handlerCall h e (mkUpdate tag { post := false, message := s })
               { post := false, message := s },
             Event.logInfoOk], r))
    ∧ (routeMessage b r e (mkUpdate tag { post := false, message := s })).2.1.countP
        (fun ev => match ev with
          | Event.handlerCall _ _ _ _ => true
          | _ => false) = 1 := by
  have hl := front_bang_not_short f hfront
  cases hrun : b.run h e (mkUpdate tag { post := false, message := s })
      { post := false, message := s } with
  | some err =>
    constructor
    · simp [routeMessage, getMessage_mkUpdate, hfields, hspam, hl, hfront,
        hlookup, hrun]
    · simp [routeMessage, getMessage_mkUpdate, hfields, hspam, hl, hfront,
        hlookup, hrun, List.countP_cons, List.countP_nil]
  | none =>
    constructor
    · simp [routeMessage, getMessage_mkUpdate, hfields, hspam, hl, hfront,
        hlookup, hrun]
    · simp [routeMessage, getMessage_mkUpdate, hfields, hspam, hl, hfront,
        hlookup, hrun, List.countP_cons, List.countP_nil]

/-- Concrete instance of claim C5: message "!ping hello" invokes the ping
handler once with the full message and dispatch succeeds. -/
theorem routeMessage_known_command_witness :
    routeMessage okBehavior mustNewTelegramPresentation entities0
        (mkUpdate 0 { post := false, message := "!ping hello" })
      = (Except.ok (),
         [Event.logDebugMessageGot "!ping hello",
          Event.spamHandlerCall entities0
            (mkUpdate 0 { post := false, message := "!ping hello" })
            { post := false, message := "!ping hello" },
          Event.logInfoCommandGot "ping",
          Event.handlerCall HandlerRef.pingCommandHandler entities0
            (mkUpdate 0 { post := false, message := "!ping hello" })
            { post := false, message := "!ping hello" },
          Event.logInfoOk], mustNewTelegramPresentation)
    ∧ (routeMessage okBehavior mustNewTelegramPresentation entities0
        (mkUpdate 0 { post := false, message := "!ping hello" })).2.1.countP
        (fun ev => match ev with
          | Event.handlerCall _ _ _ _ => true
          | _ => false) = 1 :=
  routeMessage_known_command okBehavior mustNewTelegramPresentation entities0
    0 "!ping hello" "!ping" ["hello"] HandlerRef.pingCommandHandler rfl rfl rfl rfl

/-- Claim C6: when the first token is the command marker followed by a name
absent from the registration table and the spam handler succeeds, routeMessage
logs the unknown-command warning with the command name and the original text
and returns success. -/
theorem routeMessage_unknown_command (b : Behavior) (r : Presentation)
    (e : Entities) (tag : Nat) (s f : String) (rest : List String)
    (hfields : fieldsOf s = f :: rest)
    (hfront : f.front = '!')
    (hlookup : List.lookup (f.drop 1) r.commandHandler = none)
    (hspam : b.spamReactionMessageHandler e
        (mkUpdate tag { post := false, message := s })
        { post := false, message := s } = none) :
    routeMessage b r e (mkUpdate tag { post := false, message := s })
      = (Except.ok (),
         [Event.logDebugMessageGot s,
          Event.spamHandlerCall e (mkUpdate tag { post := false, message := s })
            { post := false, message := s },
          Event.logWarnUnknownCommand (f.drop 1) s], r) := by
  have hl := front_bang_not_short f hfront
  simp [routeMessage, getMessage_mkUpdate, hfields, hspam, hl, hfront, hlookup]

/-- Concrete instance of claim C6: "!frobnicate" is not registered, so routing
warns and succeeds. -/
theorem routeMessage_unknown_command_witness :
    routeMessage okBehavior mustNewTelegramPresentation entities0
        (mkUpdate 0 { post := false, message := "!frobnicate" })
      = (Except.ok (),
         [Event.logDebugMessageGot "!frobnicate",
          Event.spamHandlerCall entities0
            (mkUpdate 0 { post := false, message := "!frobnicate" })
            { post := false, message := "!frobnicate" },
          Event.logWarnUnknownCommand "frobnicate" "!frobnicate"],
         mustNewTelegramPresentation) :=
  routeMessage_unknown_command okBehavior mustNewTelegramPresentation entities0
    0 "!frobnicate" "!frobnicate" [] rfl rfl rfl rfl

/-- Claim C8: for every non-post message with at least one token whose first
token does not start with the command marker, with the spam handler
succeeding, routeMessage returns success and invokes no command handler. -/
theorem routeMessage_plain_chat (b : Behavior) (r : Presentation)
    (e : Entities) (tag : Nat) (s f : String) (rest : List String)
    (hfields : fieldsOf s = f :: rest)
    (hfront : f.front ≠ '!')
    (hspam : b.spamReactionMessageHandler e
        (mkUpdate tag { post := false, message := s })
        { post := false, message := s } = none) :
    routeMessage b r e (mkUpdate tag { post := false, message := s })
      = (Except.ok (),
         [Event.logDebugMessageGot s,
          Event.spamHandlerCall e (mkUpdate tag { post := false, message := s })
            { post := false, message := s }], r) := by
  by_cases hl : f.length < 1
  · simp [routeMessage, getMessage_mkUpdate, hfields, hspam, hl]
  · simp [routeMessage, getMessage_mkUpdate, hfields, hspam, hl, hfront]

/-- Concrete instance of claim C8: plain chat "hello world" is dropped after
the spam handler with no command handler run. -/
theorem routeMessage_plain_chat_witness :
    routeMessage okBehavior mustNewTelegramPresentation entities0
        (mkUpdate 0 { post := false, message := "hello world" })
      = (Except.ok (),
         [Event.logDebugMessageGot "hello world",
          Event.spamHandlerCall entities0
            (mkUpdate 0 { post := false, message := "hello world" })
            { post := false, message := "hello world" }],
         mustNewTelegramPresentation) :=
  routeMessage_plain_chat okBehavior mustNewTelegramPresentation entities0
    0 "hello world" "hello" ["world"] rfl (by decide) rfl

/-- Claim C9: the command table is built at construction with exactly the
names ping, help, getMe and spamReaction, and routeMessage, login and the Run
closure all return the presentation state - hence the table - unchanged, so
the mapping seen by every dispatch equals the one built at construction. -/
theorem command_table_static :
    mustNewTelegramPresentation.commandHandler.map Prod.fst
        = ["ping", "help", "getMe", "spamReaction"]
    ∧ (∀ (b : Behavior) (r : Presentation) (e : Entities) (u : Update),
        (routeMessage b r e u).2.2 = r)
    ∧ (∀ (w : AuthWorld) (r : Presentation), (login w r).2.2 = r)
    ∧ (∀ (w : AuthWorld) (b : Behavior) (r : Presentation)
          (upds : List (Entities × Update)), (runInner w b r upds).2.2 = r) :=
  ⟨rfl, routeMessage_preserves, login_preserves, runInner_preserves⟩

/-- Claim C10: a first token that is exactly the command marker strips to the
empty command name, which is not in the table, so routeMessage warns about an
unknown command (with empty name and the original text) and returns success
rather than dropping the message as plain chat. -/
theorem routeMessage_bare_bang (b : Behavior) (e : Entities) (tag : Nat)
    (s : String) (rest : List String)
    (hfields : fieldsOf s = "!" :: rest)
    (hspam : b.spamReactionMessageHandler e
        (mkUpdate tag { post := false, message := s })
        { post := false, message := s } = none) :
    routeMessage b mustNewTelegramPresentation e
        (mkUpdate tag { post := false, message := s })
      = (Except.ok (),
         [Event.logDebugMessageGot s,
          Event.spamHandlerCall e (mkUpdate tag { post := false, message := s })
            { post := false, message := s },
          Event.logWarnUnknownCommand "" s], mustNewTelegramPresentation) := by
  have hl : ¬ (("!" : String).length < 1) := by decide
  have hfront : ("!" : String).front = '!' := rfl
  have hdrop : ("!" : String).drop 1 = "" := rfl
  have hlookup : List.lookup ("" : String)
      mustNewTelegramPresentation.commandHandler = none := rfl
  simp [routeMessage, getMessage_mkUpdate, hfields, hspam, hl, hfront, hdrop,
    hlookup]

/-- Concrete instance of claim C10: message "! hi" yields an unknown-command
warning with the empty command name and dispatch success. -/
theorem routeMessage_bare_bang_witness :
    routeMessage okBehavior mustNewTelegramPresentation entities0
        (mkUpdate 0 { post := false, message := "! hi" })
      = (Except.ok (),
         [Event.logDebugMessageGot "! hi",
          Event.spamHandlerCall entities0
            (mkUpdate 0 { post := false, message := "! hi" })
            { post := false, message := "! hi" },
          Event.logWarnUnknownCommand "" "! hi"], mustNewTelegramPresentation) :=
  routeMessage_bare_bang okBehavior entities0 0 "! hi" ["hi"] rfl rfl

/-- Tokenization fidelity checks against Go `strings.Fields`: the no-break
space U+00A0 and the em space U+2003 separate and trim tokens, while the
zero-width space U+200B, which lacks the White_Space property, does not. -/
theorem fieldsOf_unicode_space_examples :
    fieldsOf "\u00A0" = []
    ∧ fieldsOf "\u00A0!ping" = ["!ping"]
    ∧ fieldsOf "!ping\u00A0x" = ["!ping", "x"]
    ∧ fieldsOf "\u2003a\u2003" = ["a"]
    ∧ fieldsOf "a\u200Bb" = ["a\u200Bb"] :=
  ⟨rfl, rfl, rfl, rfl, rfl⟩

end Goteleout
